import Mathlib

/-!
Verification of the gpt-speaker-diarization pipeline.

Shallow embedding of the chunked-transcription and dialogue-extraction code:
  * `src/scripts/speech_to_text.py` (class `Whisper`)
  * `src/scripts/openai_decorator.py` (`retry_on_openai_errors`)
  * `src/scripts/text_analysis.py` (class `AI`)
  * `src/scripts/app.py` (request handling helpers)

Remote services (OpenAI transcription / chat completion), the external
`ffmpeg` conversion tool and the `auditok` voice-activity detector are
modelled as oracles supplied through an environment record; the temporary
files created on disk are modelled as an explicit file-system state.
-/

set_option autoImplicit false
set_option maxRecDepth 8000

deriving instance DecidableEq for Except

namespace SpeakerDiarization

/-! ## Python scalar values reaching `Whisper._clamp_chunk_seconds` -/

/-- A Python value that can be passed to `Whisper._clamp_chunk_seconds`:
an `int`, a `str` (e.g. the `CHUNK_SECONDS` environment variable), or `None`. -/
inductive PyValue where
  | vInt (n : Int)
  | vStr (s : String)
  | vNone
  deriving DecidableEq, Repr

/-- Python `str.strip()` on a character list: drop whitespace at both ends. -/
def trimChars (l : List Char) : List Char :=
  ((l.dropWhile (fun c => c.isWhitespace)).reverse.dropWhile
    (fun c => c.isWhitespace)).reverse

/-- Python `str.strip()`. -/
def trimString (s : String) : String :=
  ⟨trimChars s.data⟩

/-- Python `sep.join(parts)`. -/
def joinWith (sep : String) : List String → String
  | [] => ""
  | [x] => x
  | x :: y :: xs => x ++ sep ++ joinWith sep (y :: xs)

/-- Python `s.replace('\n', '')`: remove every newline character. -/
def removeNewlines (s : String) : String :=
  ⟨s.data.filter (fun c => c ≠ '\n')⟩

/-- The numeric value of a digit string (helper for `int(...)`). -/
def digitsValAux : Nat → List Char → Option Nat
  | acc, [] => some acc
  | acc, c :: cs =>
    if c.isDigit then digitsValAux (acc * 10 + (c.toNat - 48)) cs else none

/-- The numeric value of a non-empty all-digit character list. -/
def digitsVal : List Char → Option Nat
  | [] => none
  | l => digitsValAux 0 l

/-- Python `int(s)` on a string: optional surrounding whitespace, an optional
sign, then digits.  (Digit-group underscores are not modelled.) -/
def pyParseIntStr (s : String) : Option Int :=
  match trimChars s.data with
  | '-' :: rest => (digitsVal rest).map (fun n => -(n : Int))
  | '+' :: rest => (digitsVal rest).map (fun n => (n : Int))
  | l => (digitsVal l).map (fun n => (n : Int))

/-- Python `int(x)` on a `PyValue`: `none` models the `TypeError` /
`ValueError` raised on `None` or a malformed string. -/
def pyIntOf : PyValue → Option Int
  | .vInt n => some n
  | .vStr s => pyParseIntStr s
  | .vNone => none

/-! ## `Whisper._clamp_chunk_seconds` (speech_to_text.py lines 39-51) -/

/-- `Whisper._clamp_chunk_seconds`: try `int(chunk_seconds)`, replace a
parse failure by `120`, then clamp with `max(10, min(600, parsed_value))`.
Totality of this Lean function models "never raises". -/
def _clamp_chunk_seconds (chunk_seconds : PyValue) : Int :=
  let parsed_value : Int :=
    match pyIntOf chunk_seconds with
    | some n => n
    | none => 120
  max 10 (min 600 parsed_value)

/-- `Whisper.__init__` (speech_to_text.py lines 34-36): the default chunk
duration is the clamp of `os.getenv("CHUNK_SECONDS", chunk_seconds)`:
the environment variable's string when set, the integer constructor
default (120) otherwise. -/
def whisper_default_chunk_seconds (envChunkSeconds : Option String)
    (ctorDefault : Int) : Int :=
  _clamp_chunk_seconds
    (match envChunkSeconds with
     | some s => .vStr s
     | none => .vInt ctorDefault)

/-! ## `parse_chunk_seconds` (app.py lines 91-111) -/

/-- An HTTP error response raised by the handler (FastAPI `HTTPException`). -/
structure HTTPError where
  status_code : Nat
  detail : String
  deriving DecidableEq, Repr

/-- `app.parse_chunk_seconds`: `None` resolves to the instance default;
a non-integer string raises a 400; a value `<= 0` is passed through
unclamped (it disables backend chunking); a positive value is clamped. -/
def parse_chunk_seconds (default_chunk_seconds : Int)
    (chunk_seconds : Option String) : Except HTTPError Int :=
  match chunk_seconds with
  | none => .ok default_chunk_seconds
  | some s =>
    match pyParseIntStr s with
    | none =>
      .error ⟨400,
        "Invalid chunk_seconds: must be an integer (use <= 0 to disable backend chunking)."⟩
    | some parsed_value =>
      if parsed_value ≤ 0 then .ok parsed_value
      else .ok (_clamp_chunk_seconds (.vInt parsed_value))

/-- `Whisper.transcribe_chunked` (speech_to_text.py lines 176-178): the
effective chunk duration is the clamp of the caller-supplied value, or of
the instance default when the caller passed `None`. -/
def transcribe_chunked_chosen (default_chunk_seconds : Int)
    (chunk_seconds : Option Int) : Int :=
  _clamp_chunk_seconds
    (.vInt (match chunk_seconds with
            | none => default_chunk_seconds
            | some v => v))

/-! ## `retry_on_openai_errors` (openai_decorator.py lines 14-40) -/

/-- The error classes a remote OpenAI call can raise.  The first six are
the classes listed in the decorator's `except` tuple; `otherExc` models any
other exception (e.g. an `OSError` from the file write inside the wrapped
function), which the decorator does not catch. -/
inductive OpenAIErr where
  | timeout
  | apiError
  | connectionError
  | internalServerError
  | badRequest
  | rateLimit
  | otherExc
  deriving DecidableEq, Repr

/-- Whether the decorator's `except` tuple catches the error. -/
def OpenAIErr.retryable : OpenAIErr → Bool
  | .otherExc => false
  | _ => true

/-- The message of the exception raised when the retry budget is exhausted:
`f"Reached maximum number of retries ({max_retry})"`. -/
def retryMsg (max_retry : Nat) : String :=
  "Reached maximum number of retries (" ++ toString max_retry ++ ")"

/-- Outcome of a call wrapped by `retry_on_openai_errors`: a returned value,
the final `Exception` after the retry budget is exhausted (carrying its
message), or a non-retryable exception propagated unchanged. -/
inductive RetryResult (α : Type) where
  | ok (a : α)
  | exhausted (msg : String)
  | propagated (e : OpenAIErr)
  deriving DecidableEq, Repr

/-- The decorator's `while retry < max_retry` loop, threading an explicit
state `σ` through the wrapped function's side effects.  `remaining` is
`max_retry - retry` and `calls` counts invocations of the wrapped function
so far; the second component of the result is the total number of calls. -/
def retryAux {σ α : Type} (max_retry : Nat)
    (body : Nat → σ → Except OpenAIErr α × σ) :
    Nat → Nat → σ → RetryResult α × Nat × σ
  | 0, calls, s => (.exhausted (retryMsg max_retry), calls, s)
  | remaining + 1, calls, s =>
    match body calls s with
    | (.ok a, s1) => (.ok a, calls + 1, s1)
    | (.error e, s1) =>
      if e.retryable then retryAux max_retry body remaining (calls + 1) s1
      else (.propagated e, calls + 1, s1)

/-- `retry_on_openai_errors(max_retry)` applied to a stateful body. -/
def retry_on_openai_errors {σ α : Type} (max_retry : Nat)
    (body : Nat → σ → Except OpenAIErr α × σ) (s : σ) :
    RetryResult α × Nat × σ :=
  retryAux max_retry body max_retry 0 s

/-- The decorator specialised to a body without side effects: `call i` is
the outcome of the `i`-th invocation of the wrapped function. -/
def retryCall {α : Type} (max_retry : Nat)
    (call : Nat → Except OpenAIErr α) : RetryResult α × Nat :=
  let r := retry_on_openai_errors max_retry (fun i s => (call i, s)) ()
  (r.1, r.2.1)

/-! ## Temporary-file state (`resources/audios/<uuid>.wav` files) -/

/-- The set of temporary audio files existing under `resources/audios`.
`counter` models the freshness of `uuid.uuid4()` names: each new file gets
the current counter as its name. -/
structure FS where
  counter : Nat
  existing : List Nat
  deriving DecidableEq, Repr

/-- The file system at the start of a request: no temporary files. -/
def FS.init : FS := ⟨0, []⟩

/-- Create a fresh temporary file and return its name. -/
def newTempFile (fs : FS) : Nat × FS :=
  (fs.counter, ⟨fs.counter + 1, fs.counter :: fs.existing⟩)

/-- `os.remove(f)`. -/
def removeFile (fs : FS) (f : Nat) : FS :=
  ⟨fs.counter, fs.existing.filter (fun x => x ≠ f)⟩

/-- `if temp_wav_path and os.path.exists(temp_wav_path): os.remove(temp_wav_path)`
(the `finally` block of `transcribe_chunked`). -/
def removeIfExists (fs : FS) (f : Nat) : FS :=
  if f ∈ fs.existing then removeFile fs f else fs

/-! ## `Whisper.transcribe` and `Whisper.transcribe_raw`
(speech_to_text.py lines 124-164) -/

/-- One invocation of the body of `Whisper.transcribe(segment)` (the
function wrapped by `@retry_on_openai_errors(max_retry=7)`): it writes the
segment to a fresh temporary WAV file, uploads it, and — only after the
remote call returned — removes the file.  `api i` is the remote service's
response to the `i`-th attempt.  When the remote call raises, the
`os.remove` line is never reached, so the temporary file stays. -/
def transcribe_attempt (api : Nat → Except OpenAIErr String) (i : Nat)
    (fs : FS) : Except OpenAIErr String × FS :=
  let (f, fs1) := newTempFile fs
  match api i with
  | .ok text => (.ok text, removeFile fs1 f)
  | .error e => (.error e, fs1)

/-- `Whisper.transcribe(segment)` with its retry decorator (`max_retry=7`). -/
def transcribe_run (api : Nat → Except OpenAIErr String) (fs : FS) :
    RetryResult String × Nat × FS :=
  retry_on_openai_errors 7 (transcribe_attempt api) fs

/-- `Whisper.transcribe_raw(audio_file)` with its retry decorator
(`max_retry=7`): uploads the file at the given path directly, creating no
temporary file.  `api i` is the remote response to the `i`-th attempt. -/
def transcribe_raw_result (api : Nat → Except OpenAIErr String) :
    RetryResult String × Nat :=
  retryCall 7 api

/-! ## `Whisper.transcribe_chunked` (speech_to_text.py lines 166-228) -/

/-- The oracles one request's run of the pipeline interacts with:
  * `convert`: whether the `ffmpeg` invocation in `_convert_to_wav_mono_16k`
    succeeds (on success it writes the normalized temporary WAV);
  * `segm chosen`: the result of `audio_process` on the normalized file with
    the chosen chunk duration — a list of speech segments (identified by
    position), or an exception (e.g. a `soundfile` read error);
  * `segApi i a`: the remote transcription response for segment `i`,
    attempt `a`, inside `Whisper.transcribe`;
  * `rawApi p inv a`: the remote transcription response for the file at
    path `p` in `Whisper.transcribe_raw`, for its `inv`-th invocation
    during this request, attempt `a`. -/
structure Env where
  convert : Except Unit Unit
  segm : Int → Except Unit (List Nat)
  segApi : Nat → Nat → Except OpenAIErr String
  rawApi : String → Nat → Nat → Except OpenAIErr String

/-- The joining step of `transcribe_chunked` (speech_to_text.py line 205):
`" ".join(chunk.strip() for chunk in transcript_chunks if chunk).strip()` —
drop falsy (empty) chunks, trim each survivor, join with single spaces,
trim the joined string. -/
def joinChunks (transcript_chunks : List String) : String :=
  trimString (joinWith " "
    ((transcript_chunks.filter (fun c => c ≠ "")).map trimString))

/-- The joining rule as the specification words it: each piece trimmed of
leading/trailing whitespace, empty pieces dropped before joining, joined by
single spaces, in order. -/
def joinChunksSpec (transcript_chunks : List String) : String :=
  joinWith " "
    ((transcript_chunks.map trimString).filter (fun c => c ≠ ""))

/-- The `for index, segment in enumerate(wav_segments)` loop of
`transcribe_chunked`: transcribe each segment in order via
`Whisper.transcribe`, collecting the texts; the first exception escaping a
`transcribe` call (retry budget exhausted or non-retryable error) aborts
the loop.  `n` is the number of segments left, `idx` the position of the
next one. -/
def chunksLoop (env : Env) : Nat → Nat → List String → FS →
    Except Unit (List String) × FS
  | 0, _idx, acc, fs => (.ok acc.reverse, fs)
  | n + 1, idx, acc, fs =>
    match transcribe_run (env.segApi idx) fs with
    | (.ok t, _, fs1) => chunksLoop env n (idx + 1) (t :: acc) fs1
    | (_, _, fs1) => (.error (), fs1)

/-- The `except Exception` branch of `transcribe_chunked`: fall back to
`self.transcribe_raw(filepath)` on the original input path (invocation 1
of `transcribe_raw` in this request).  If the fallback itself raises, the
exception propagates out of `transcribe_chunked`. -/
def fallbackRun (env : Env) (filepath : String) (fs : FS) :
    Except Unit String × FS :=
  match (transcribe_raw_result (env.rawApi filepath 1)).1 with
  | .ok t => (.ok t, fs)
  | _ => (.error (), fs)

/-- `Whisper.transcribe_chunked(filepath, chunk_seconds)`.  The result is
`.ok transcript`, or `.error ()` when an exception propagates to the
caller (only possible when the fallback `transcribe_raw` itself raises).
The returned `FS` reflects the `finally` block: the normalized temporary
file, if it was created, is removed on every exit path. -/
def transcribe_chunked_run (env : Env) (filepath : String)
    (chunk_seconds : Option Int) (default_chunk_seconds : Int) (fs0 : FS) :
    Except Unit String × FS :=
  let chosen := transcribe_chunked_chosen default_chunk_seconds chunk_seconds
  match env.convert with
  | .error _ =>
    -- conversion raised before `temp_wav_path` was assigned:
    -- the except-branch fallback runs, the finally block deletes nothing
    fallbackRun env filepath fs0
  | .ok _ =>
    let (temp_wav_path, fs1) := newTempFile fs0
    let step :=
      match env.segm chosen with
      | .error _ => fallbackRun env filepath fs1
      | .ok wav_segments =>
        if wav_segments.isEmpty then
          -- `if not wav_segments`: whole-file call inside the try block
          -- (invocation 0); if it raises, the except branch catches it
          -- and calls `transcribe_raw` once more
          match (transcribe_raw_result (env.rawApi filepath 0)).1 with
          | .ok t => (.ok t, fs1)
          | _ => fallbackRun env filepath fs1
        else
          match chunksLoop env wav_segments.length 0 [] fs1 with
          | (.ok transcript_chunks, fs2) => (.ok (joinChunks transcript_chunks), fs2)
          | (.error _, fs2) => fallbackRun env filepath fs2
    (step.1, removeIfExists step.2 temp_wav_path)

/-! ## Request handling (`app.py` lines 46-66) -/

/-- Which transcription entry point `process_audio` invokes. -/
inductive TranscriptionPath where
  | singlePass
  | chunkedPath
  deriving DecidableEq, Repr

/-- The dispatch in `process_audio` (app.py lines 56-59):
`if chunk_seconds is not None and chunk_seconds <= 0` use
`transcribe_single_pass`, otherwise `transcribe_chunked`. -/
def process_audio_path (chunk_seconds : Option Int) : TranscriptionPath :=
  match chunk_seconds with
  | some v => if v ≤ 0 then .singlePass else .chunkedPath
  | none => .chunkedPath

/-- Modelled from the spec: `Whisper.transcribe_single_pass` is called by
`app.process_audio` / `app.process_youtube_video` and provided by the test
fakes, but its definition is not under `src/scripts/speech_to_text.py`.
Per spec §4.3 (`transcribeWhole(filePath)`: "same remote call but uploads
the original file directly, same retry policy") and the glossary's
"whole-file fallback", it performs a single whole-file transcription of the
given path, i.e. the behaviour of `transcribe_raw` on that path
(invocation 0, since it is the only remote call of the request). -/
def transcribe_single_pass (env : Env) (filepath : String) :
    RetryResult String × Nat :=
  transcribe_raw_result (env.rawApi filepath 0)

/-- The transcription part of `process_audio` (app.py lines 55-59), applied
to the acquired audio path (`write_audio` is an external collaborator).
Returns `.error ()` when the invoked entry point raises. -/
def process_audio_transcript (env : Env) (audio_output_path : String)
    (chunk_seconds : Option Int) (default_chunk_seconds : Int) (fs : FS) :
    Except Unit String × FS :=
  match process_audio_path chunk_seconds with
  | .singlePass =>
    match (transcribe_single_pass env audio_output_path).1 with
    | .ok t => (.ok t, fs)
    | _ => (.error (), fs)
  | .chunkedPath =>
    transcribe_chunked_run env audio_output_path chunk_seconds
      default_chunk_seconds fs

/-! ## `AI.extract_dialogue` (text_analysis.py lines 38-87) -/

/-- One chat message, as the `{"role": ..., "content": ...}` dicts built in
`extract_dialogue`. -/
structure Message where
  role : String
  content : String
  deriving DecidableEq, Repr

/-- The fixed system prompt of `extract_dialogue` (a Python triple-quoted
literal, embedded newlines and indentation included). -/
def diarization_prompt : String :=
  "Perform speaker diarization on the given text to identify and extract conversations involving multiple speakers. Present the dialogue in the following structured format:\n        Speaker 1:\n        Speaker 2:\n        Speaker 3:\n        ..."

/-- The message list built at the top of each loop iteration:
`list(history)` when `history` is truthy, else a fresh
`[{"role": "system", "content": prompt}]`; then the transcript, with
embedded newlines stripped, appended as a user turn. -/
def build_messages (history : List Message) (transcript : String) :
    List Message :=
  let messages :=
    if history.isEmpty then [⟨"system", diarization_prompt⟩] else history
  messages ++ [⟨"user", removeNewlines transcript⟩]

/-- `max_token` as computed in `extract_dialogue` (text_analysis.py lines
67-72), with `tokens` the `tiktoken` token counter (`AI.token_counter`). -/
def compute_max_token (tokens : String → Nat) (transcript : String)
    (messages : List Message) : Int :=
  let tokens_per_message : Int := 4
  let prompt_tokens : Int := tokens diarization_prompt
  let transcript_tokens : Int := tokens transcript
  let overhead_tokens : Int := (messages.length : Int) * tokens_per_message + 3
  let available_tokens : Int :=
    8191 - (prompt_tokens + transcript_tokens + overhead_tokens)
  max 1 (min 4096 available_tokens)

/-- The argument record of one `client.chat.completions.create` call
(text_analysis.py lines 73-81). -/
structure ChatRequest where
  messages : List Message
  max_tokens : Int
  temperature : Int
  top_p : Int
  presence_penalty : Int
  frequency_penalty : Int
  deriving DecidableEq, Repr

/-- The chat-completion call made by one loop iteration, with the fixed
sampling parameters of the source. -/
def chat_request (tokens : String → Nat) (transcript : String)
    (messages : List Message) : ChatRequest :=
  { messages := messages
    max_tokens := compute_max_token tokens transcript messages
    temperature := 1
    top_p := 1
    presence_penalty := 0
    frequency_penalty := 0 }

/-- The `while True` loop of `extract_dialogue`, bounded by `fuel` (the
Python loop has no bound; `none` as first result component means the loop
was still running after `fuel` iterations).  `api k` is the remote
chat-completion outcome of attempt `k`: `.error ()` is a `RateLimitError`,
`.ok resp` a response whose first choice's content is `resp`.  `msgVar` is
the Python `messages` variable as it crosses iterations; the loop body
rebuilds it from `history` (or afresh) before any use, which is why the
`messages.pop(1)` executed in the `except RateLimitError` branch never
influences a later iteration.  The second result component records the
requests sent, in order. -/
def extract_dialogue_loop (tokens : String → Nat)
    (api : Nat → Except Unit String) (transcript : String)
    (history : List Message) :
    Nat → Nat → List Message → List ChatRequest →
    Option String × List ChatRequest
  | 0, _k, _msgVar, acc => (none, acc.reverse)
  | fuel + 1, k, _msgVar, acc =>
    let messages := build_messages history transcript
    let req := chat_request tokens transcript messages
    match api k with
    | .ok resp => (some (trimString resp), (req :: acc).reverse)
    | .error _ =>
      extract_dialogue_loop tokens api transcript history fuel (k + 1)
        (messages.eraseIdx 1) (req :: acc)

/-- `AI.extract_dialogue(transcript, history)` run for at most `fuel`
iterations. -/
def extract_dialogue_run (tokens : String → Nat)
    (api : Nat → Except Unit String) (transcript : String)
    (history : List Message) (fuel : Nat) :
    Option String × List ChatRequest :=
  extract_dialogue_loop tokens api transcript history fuel 0 [] []

/-! ## Lemmas about the retry loop -/

theorem retryAux_unit_all_fail {α : Type} (call : Nat → Except OpenAIErr α)
    (mr : Nat) :
    ∀ (remaining calls : Nat),
      (∀ j, j < remaining → ∃ e, call (calls + j) = .error e ∧ e.retryable = true) →
      retryAux mr (fun i (s : Unit) => (call i, s)) remaining calls () =
        (.exhausted (retryMsg mr), calls + remaining, ()) := by
  intro remaining
  induction remaining with
  | zero => intro calls _; simp [retryAux]
  | succ n ih =>
    intro calls h
    obtain ⟨e, he, hr⟩ := h 0 n.succ_pos
    rw [Nat.add_zero] at he
    have step : retryAux mr (fun i (s : Unit) => (call i, s)) (n + 1) calls () =
        retryAux mr (fun i (s : Unit) => (call i, s)) n (calls + 1) () := by
      simp [retryAux, he, hr]
    have hshift : ∀ j, j < n →
        ∃ e, call (calls + 1 + j) = .error e ∧ e.retryable = true := by
      intro j hj
      obtain ⟨e', he', hr'⟩ := h (j + 1) (Nat.succ_lt_succ hj)
      refine ⟨e', ?_, hr'⟩
      rw [← he']
      congr 1
      omega
    rw [step, ih (calls + 1) hshift]
    have harith : calls + 1 + n = calls + (n + 1) := by omega
    rw [harith]

theorem retryAux_unit_first_success {α : Type} (call : Nat → Except OpenAIErr α)
    (mr : Nat) :
    ∀ (k remaining calls : Nat) (a : α), k < remaining →
      call (calls + k) = .ok a →
      (∀ j, j < k → ∃ e, call (calls + j) = .error e ∧ e.retryable = true) →
      retryAux mr (fun i (s : Unit) => (call i, s)) remaining calls () =
        (.ok a, calls + k + 1, ()) := by
  intro k
  induction k with
  | zero =>
    intro remaining calls a hk hok _
    cases remaining with
    | zero => omega
    | succ n =>
      rw [Nat.add_zero] at hok
      simp [retryAux, hok]
  | succ k ih =>
    intro remaining calls a hk hok h
    cases remaining with
    | zero => omega
    | succ n =>
      obtain ⟨e, he, hr⟩ := h 0 k.succ_pos
      rw [Nat.add_zero] at he
      have step : retryAux mr (fun i (s : Unit) => (call i, s)) (n + 1) calls () =
          retryAux mr (fun i (s : Unit) => (call i, s)) n (calls + 1) () := by
        simp [retryAux, he, hr]
      have hok' : call (calls + 1 + k) = .ok a := by
        rw [← hok]; congr 1; omega
      have hshift : ∀ j, j < k →
          ∃ e, call (calls + 1 + j) = .error e ∧ e.retryable = true := by
        intro j hj
        obtain ⟨e', he', hr'⟩ := h (j + 1) (Nat.succ_lt_succ hj)
        refine ⟨e', ?_, hr'⟩
        rw [← he']
        congr 1
        omega
      rw [step, ih n (calls + 1) a (by omega) hok' hshift]
      have harith : calls + 1 + k + 1 = calls + (k + 1) + 1 := by omega
      rw [harith]

/-- C7: if the wrapped remote call fails with a retrable-class error on
every one of its attempts, `retry_on_openai_errors(max_retry=7)` makes
exactly 7 calls and then raises an exception whose message carries the
retry count 7; if an earlier attempt succeeds, its result is returned and
no further calls are made. -/
theorem c7_retry_budget (call : Nat → Except OpenAIErr String) :
    ((∀ i, i < 7 → ∃ e, call i = .error e ∧ e.retryable = true) →
      retryCall 7 call =
        (.exhausted "Reached maximum number of retries (7)", 7)) ∧
    (∀ (k : Nat) (a : String), k < 7 → call k = .ok a →
      (∀ i, i < k → ∃ e, call i = .error e ∧ e.retryable = true) →
      retryCall 7 call = (.ok a, k + 1)) := by
  constructor
  · intro h
    have hrun := retryAux_unit_all_fail call 7 7 0 (by simpa using h)
    have hmsg : retryMsg 7 = "Reached maximum number of retries (7)" := rfl
    simp [retryCall, retry_on_openai_errors, hrun, hmsg]
  · intro k a hk hok h
    have hrun := retryAux_unit_first_success call 7 k 7 0 a hk
      (by simpa using hok) (by simpa using h)
    simp [retryCall, retry_on_openai_errors, hrun]

/-- Witness for C7: with a remote call that rate-limits on every attempt,
exactly 7 calls are made and the final exception message names the budget;
with a call that rate-limits three times and then succeeds, the successful
response is returned after exactly 4 calls. -/
theorem c7_retry_budget_witness :
    retryCall 7 (fun _ => (.error .rateLimit : Except OpenAIErr String)) =
      (.exhausted "Reached maximum number of retries (7)", 7) ∧
    retryCall 7
        (fun i => if i = 3 then .ok "final transcript"
                  else (.error .rateLimit : Except OpenAIErr String)) =
      (.ok "final transcript", 4) := by
  constructor
  · exact (c7_retry_budget (fun _ => .error .rateLimit)).1
      (fun i _ => ⟨.rateLimit, rfl, rfl⟩)
  · exact (c7_retry_budget _).2 3 "final transcript" (by omega) rfl
      (fun i hi => ⟨.rateLimit, by simp [Nat.ne_of_lt hi], rfl⟩)

/-! ## Lemmas and theorems about the chunk-duration clamp -/

/-- C10: `Whisper._clamp_chunk_seconds` is total: for every input it
returns an integer in `[10, 600]` (and, being a total Lean function, never
raises); any value that cannot be parsed as an integer — `None` included,
e.g. a malformed `CHUNK_SECONDS` environment variable fed to
`Whisper.__init__` — is silently replaced by the default 120 before
clamping, and 120 is inside the clamp range, so the result is then 120. -/
theorem c10_clamp_total (v : PyValue) (s : String) :
    (10 ≤ _clamp_chunk_seconds v ∧ _clamp_chunk_seconds v ≤ 600) ∧
    (pyIntOf v = none → _clamp_chunk_seconds v = 120) ∧
    (pyParseIntStr s = none →
      whisper_default_chunk_seconds (some s) 120 = 120) := by
  refine ⟨?_, ?_, ?_⟩
  · cases h : pyIntOf v <;> simp only [_clamp_chunk_seconds, h] <;> omega
  · intro h
    simp [_clamp_chunk_seconds, h]
  · intro h
    simp [whisper_default_chunk_seconds, _clamp_chunk_seconds, pyIntOf, h]

/-- Witness for C10: `None` (a `TypeError` inside `int(...)`) yields 120,
and a malformed `CHUNK_SECONDS` string at startup yields the default 120. -/
theorem c10_clamp_total_witness :
    _clamp_chunk_seconds .vNone = 120 ∧
    whisper_default_chunk_seconds (some "not-an-int") 120 = 120 := by
  refine ⟨(c10_clamp_total .vNone "not-an-int").2.1 rfl,
    (c10_clamp_total .vNone "not-an-int").2.2 (by decide)⟩

/-- C2: a requested chunk duration parsed from the request as an integer
`v > 0` is resolved by `parse_chunk_seconds` to `max(10, min(600, v))`
without being rejected, and `transcribe_chunked` re-clamps this value to
itself, so the effective duration used by the pipeline is
`max(10, min(600, v))`. -/
theorem c2_positive_chunk_clamped (d d' : Int) (s : String) (v : Int)
    (hparse : pyParseIntStr s = some v) (hpos : 0 < v) :
    parse_chunk_seconds d (some s) = .ok (max 10 (min 600 v)) ∧
    transcribe_chunked_chosen d' (some (max 10 (min 600 v))) =
      max 10 (min 600 v) := by
  constructor
  · simp only [parse_chunk_seconds, hparse]
    rw [if_neg (by omega)]
    rfl
  · simp only [transcribe_chunked_chosen, _clamp_chunk_seconds, pyIntOf]
    omega

/-- Witness for C2: a requested value of 1000 is silently clamped to 600,
and the pipeline's own clamp keeps it at 600. -/
theorem c2_positive_chunk_clamped_witness :
    parse_chunk_seconds 120 (some "1000") = .ok (max 10 (min 600 1000)) ∧
    transcribe_chunked_chosen 120 (some (max 10 (min 600 1000))) =
      max 10 (min 600 1000) :=
  c2_positive_chunk_clamped 120 120 "1000" 1000 (by decide) (by decide)

/-! ## Lemmas about the chunked-transcription pipeline -/

theorem transcribe_run_first_ok (api : Nat → Except OpenAIErr String)
    (fs : FS) (a : String) (h : api 0 = .ok a) :
    transcribe_run api fs =
      (.ok a, 1,
        removeFile ⟨fs.counter + 1, fs.counter :: fs.existing⟩ fs.counter) := by
  simp [transcribe_run, retry_on_openai_errors, retryAux, transcribe_attempt,
    newTempFile, h]

theorem fallbackRun_snd (env : Env) (path : String) (fs : FS) :
    (fallbackRun env path fs).2 = fs := by
  unfold fallbackRun
  cases (transcribe_raw_result (env.rawApi path 1)).1 <;> rfl

theorem removeIfExists_not_mem (fs : FS) (f : Nat) :
    f ∉ (removeIfExists fs f).existing := by
  by_cases h : f ∈ fs.existing
  · simp [removeIfExists, removeFile, h, List.mem_filter]
  · simp [removeIfExists, h]

theorem chunksLoop_fst_ok (env : Env) (t : Nat → String) :
    ∀ (n idx : Nat) (acc : List String) (fs : FS),
      (∀ j, j < n → env.segApi (idx + j) 0 = .ok (t (idx + j))) →
      (chunksLoop env n idx acc fs).1 =
        .ok (acc.reverse ++ (List.range n).map (fun j => t (idx + j))) := by
  intro n
  induction n with
  | zero => intro idx acc fs _; simp [chunksLoop]
  | succ n ih =>
    intro idx acc fs h
    have h0 : env.segApi idx 0 = .ok (t idx) := by simpa using h 0 n.succ_pos
    have hshift : ∀ j, j < n →
        env.segApi (idx + 1 + j) 0 = .ok (t (idx + 1 + j)) := by
      intro j hj
      have := h (j + 1) (Nat.succ_lt_succ hj)
      have harith : idx + (j + 1) = idx + 1 + j := by omega
      rwa [harith] at this
    have hmap : (List.range (n + 1)).map (fun j => t (idx + j)) =
        t idx :: (List.range n).map (fun j => t (idx + 1 + j)) := by
      rw [List.range_succ_eq_map, List.map_cons, List.map_map]
      refine congrArg₂ _ (by simp) ?_
      have hfun : ((fun j => t (idx + j)) ∘ Nat.succ) =
          (fun j => t (idx + 1 + j)) := by
        funext j
        show t (idx + Nat.succ j) = t (idx + 1 + j)
        congr 1
        omega
      rw [hfun]
    simp only [chunksLoop, transcribe_run_first_ok (env.segApi idx) fs (t idx) h0]
    rw [ih (idx + 1) (t idx :: acc) _ hshift, hmap]
    simp [List.append_assoc]

theorem chunksLoop_clean_snd (env : Env) (t : Nat → String) :
    ∀ (n idx c : Nat) (acc : List String), 0 < c →
      (∀ j, j < n → env.segApi (idx + j) 0 = .ok (t (idx + j))) →
      (chunksLoop env n idx acc ⟨c, [0]⟩).2 = ⟨c + n, [0]⟩ := by
  intro n
  induction n with
  | zero => intro idx c acc _ _; simp [chunksLoop]
  | succ n ih =>
    intro idx c acc hc h
    have h0 : env.segApi idx 0 = .ok (t idx) := by simpa using h 0 n.succ_pos
    have hshift : ∀ j, j < n →
        env.segApi (idx + 1 + j) 0 = .ok (t (idx + 1 + j)) := by
      intro j hj
      have := h (j + 1) (Nat.succ_lt_succ hj)
      have harith : idx + (j + 1) = idx + 1 + j := by omega
      rwa [harith] at this
    have hfs : removeFile ⟨c + 1, [c, 0]⟩ c = (⟨c + 1, [0]⟩ : FS) := by
      simp [removeFile]
      omega
    simp only [chunksLoop,
      transcribe_run_first_ok (env.segApi idx) ⟨c, [0]⟩ (t idx) h0, hfs]
    rw [ih (idx + 1) (c + 1) (t idx :: acc) (by omega) hshift]
    have harith : c + 1 + n = c + (n + 1) := by omega
    rw [harith]

theorem transcribe_chunked_run_snd_shape (env : Env) (path : String)
    (cs : Option Int) (d : Int) (fs0 : FS) (h : env.convert = .ok ()) :
    ∃ fs2 : FS,
      (transcribe_chunked_run env path cs d fs0).2 =
        removeIfExists fs2 fs0.counter := by
  unfold transcribe_chunked_run
  rw [h]
  exact ⟨_, rfl⟩

/-! ## C1, C3, C4, C5, C6 -/

/-- C1: when the resolved chunk duration is `<= 0`, `process_audio`
dispatches to `transcribe_single_pass` (whole-file, single-pass
transcription of the acquired audio file, spec-modelled since its
definition is not under `src/`), never to the chunked/segmenting
`transcribe_chunked` path, and the returned transcript is the whole-file
transcription result. -/
theorem c1_nonpositive_chunk_single_pass (env : Env) (path : String)
    (v : Int) (d : Int) (fs : FS) (t : String) (hv : v ≤ 0)
    (hsp : (transcribe_single_pass env path).1 = .ok t) :
    process_audio_path (some v) = .singlePass ∧
    process_audio_transcript env path (some v) d fs = (.ok t, fs) := by
  have hp : process_audio_path (some v) = .singlePass := by
    simp [process_audio_path, hv]
  refine ⟨hp, ?_⟩
  simp [process_audio_transcript, hp, hsp]

/-- Environment for the C1 witness: the remote whole-file call succeeds. -/
def c1Env : Env :=
  { convert := .error ()
    segm := fun _ => .ok []
    segApi := fun _ _ => .error .rateLimit
    rawApi := fun _ _ _ => .ok "whole transcript" }

/-- Witness for C1: a request resolved to `chunk_seconds = -5` takes the
single-pass path and returns the whole-file transcript. -/
theorem c1_nonpositive_chunk_single_pass_witness :
    process_audio_path (some (-5)) = .singlePass ∧
    process_audio_transcript c1Env "acquired.wav" (some (-5)) 120 FS.init =
      (.ok "whole transcript", FS.init) :=
  c1_nonpositive_chunk_single_pass c1Env "acquired.wav" (-5) 120 FS.init
    "whole transcript" (by decide) rfl

/-- Environment for the C3 counterexample and witness: three speech
segments whose transcriptions are `"a"`, `" "` (whitespace only), `"b"`. -/
def c3Env : Env :=
  { convert := .ok ()
    segm := fun _ => .ok [10, 11, 12]
    segApi := fun i _ => .ok (["a", " ", "b"].getD i "")
    rawApi := fun _ _ _ => .error .rateLimit }

/-- Counterexample to C3 as stated: with per-segment transcriptions
`"a"`, `" "`, `"b"`, the code returns `"a  b"` (two consecutive spaces):
the whitespace-only piece is not dropped — the code filters empty pieces
before trimming — so the transcript is not the space-joined trimmed
non-empty subset `"a b"`. -/
theorem c3_counterexample :
    (transcribe_chunked_run c3Env "input.mp3" none 120 FS.init).1 =
      .ok "a  b" ∧
    joinChunksSpec ["a", " ", "b"] = "a b" ∧
    (transcribe_chunked_run c3Env "input.mp3" none 120 FS.init).1 ≠
      .ok (joinChunksSpec ["a", " ", "b"]) :=
  ⟨rfl, rfl, by decide⟩

/-- C3 (amended): for a segmentation with `N >= 1` spans whose per-segment
transcriptions all succeed, the transcript equals the per-segment
transcriptions with (pre-trim) empty pieces dropped first, each remaining
piece trimmed, joined by single-space separators, and the joined string
trimmed — `joinChunks`, not the trim-then-drop rule `joinChunksSpec`. -/
theorem c3_transcript_is_joined_chunks (env : Env) (path : String)
    (cs : Option Int) (d : Int) (fs0 : FS) (segs : List Nat)
    (t : Nat → String)
    (hconv : env.convert = .ok ())
    (hseg : env.segm (transcribe_chunked_chosen d cs) = .ok segs)
    (hne : segs ≠ [])
    (hapi : ∀ i, i < segs.length → env.segApi i 0 = .ok (t i)) :
    (transcribe_chunked_run env path cs d fs0).1 =
      .ok (joinChunks ((List.range segs.length).map t)) := by
  have hloop := chunksLoop_fst_ok env t segs.length 0 []
    ⟨fs0.counter + 1, fs0.counter :: fs0.existing⟩ (by simpa using hapi)
  have hmap : (List.range segs.length).map (fun j => t (0 + j)) =
      (List.range segs.length).map t := by
    refine congrArg₂ _ ?_ rfl
    funext j
    simp
  rw [hmap] at hloop
  unfold transcribe_chunked_run
  rw [hconv]
  dsimp only [newTempFile]
  rw [hseg]
  dsimp only
  have hempty : segs.isEmpty = false := by
    cases segs with
    | nil => exact absurd rfl hne
    | cons s rest => rfl
  rw [hempty]
  simp only [Bool.false_eq_true, if_false]
  rcases hcl : chunksLoop env segs.length 0 []
      ⟨fs0.counter + 1, fs0.counter :: fs0.existing⟩ with ⟨r, fs2⟩
  have hr : r = .ok ([].reverse ++ (List.range segs.length).map t) := by
    rw [hcl] at hloop
    exact hloop
  subst hr
  dsimp only
  simp

/-- Witness for C3 (amended): the three-segment run returns exactly
`joinChunks` of the segment transcriptions. -/
theorem c3_transcript_is_joined_chunks_witness :
    (transcribe_chunked_run c3Env "input.mp3" none 120 FS.init).1 =
      .ok (joinChunks ((List.range (3 : Nat)).map
        (fun i => ["a", " ", "b"].getD i ""))) :=
  c3_transcript_is_joined_chunks c3Env "input.mp3" none 120 FS.init
    [10, 11, 12] (fun i => ["a", " ", "b"].getD i "") rfl rfl
    (by decide) (fun i _ => rfl)

/-- C4: when segmentation yields zero spans, `transcribe_chunked` returns
exactly the whole-file transcription result for the same input path — a
fallback, not an error. -/
theorem c4_empty_segmentation_whole_file (env : Env) (path : String)
    (cs : Option Int) (d : Int) (fs0 : FS) (t : String)
    (hconv : env.convert = .ok ())
    (hseg : env.segm (transcribe_chunked_chosen d cs) = .ok [])
    (hraw : (transcribe_raw_result (env.rawApi path 0)).1 = .ok t) :
    (transcribe_chunked_run env path cs d fs0).1 = .ok t := by
  unfold transcribe_chunked_run
  rw [hconv]
  dsimp only [newTempFile]
  rw [hseg]
  simp [hraw]

/-- Environment for the C4 witness: segmentation finds no spans, the
whole-file call succeeds on its first invocation. -/
def c4Env : Env :=
  { convert := .ok ()
    segm := fun _ => .ok []
    segApi := fun _ _ => .error .rateLimit
    rawApi := fun _ inv _ => if inv = 0 then .ok "whole file transcript"
                             else .error .rateLimit }

/-- Witness for C4: zero spans yield the whole-file transcript. -/
theorem c4_empty_segmentation_whole_file_witness :
    (transcribe_chunked_run c4Env "input.mp3" none 120 FS.init).1 =
      .ok "whole file transcript" :=
  c4_empty_segmentation_whole_file c4Env "input.mp3" none 120 FS.init
    "whole file transcript" rfl rfl rfl

/-- C5: whenever conversion, segmentation, or a per-chunk transcription
raises, `transcribe_chunked` falls back to a single
`transcribe_raw` call on the original input path (`env.rawApi path`, the
model never passes the normalized temporary file to the fallback) and
returns that single transcript. -/
theorem c5_exception_falls_back_to_original (env : Env) (path : String)
    (cs : Option Int) (d : Int) (fs0 : FS) (t : String)
    (hfail : env.convert = .error () ∨
      (env.convert = .ok () ∧
        env.segm (transcribe_chunked_chosen d cs) = .error ()) ∨
      (env.convert = .ok () ∧
        ∃ segs, env.segm (transcribe_chunked_chosen d cs) = .ok segs ∧
          segs ≠ [] ∧
          ∀ fs : FS, (chunksLoop env segs.length 0 [] fs).1 = .error ()))
    (hfb : (transcribe_raw_result (env.rawApi path 1)).1 = .ok t) :
    (transcribe_chunked_run env path cs d fs0).1 = .ok t := by
  rcases hfail with hconv | ⟨hconv, hseg⟩ | ⟨hconv, segs, hseg, hne, hloop⟩
  · unfold transcribe_chunked_run
    rw [hconv]
    simp [fallbackRun, hfb]
  · unfold transcribe_chunked_run
    rw [hconv]
    dsimp only [newTempFile]
    rw [hseg]
    simp [fallbackRun, hfb]
  · unfold transcribe_chunked_run
    rw [hconv]
    dsimp only [newTempFile]
    rw [hseg]
    dsimp only
    have hempty : segs.isEmpty = false := by
      cases segs with
      | nil => exact absurd rfl hne
      | cons s rest => rfl
    rw [hempty]
    simp only [Bool.false_eq_true, if_false]
    rcases hcl : chunksLoop env segs.length 0 []
        ⟨fs0.counter + 1, fs0.counter :: fs0.existing⟩ with ⟨r, fs2⟩
    have hr : r = .error () := by
      have := hloop ⟨fs0.counter + 1, fs0.counter :: fs0.existing⟩
      rw [hcl] at this
      exact this
    subst hr
    dsimp only
    simp [fallbackRun, hfb]

/-- Environment for the C5 witness: `ffmpeg` conversion fails, the
fallback whole-file call succeeds. -/
def c5Env : Env :=
  { convert := .error ()
    segm := fun _ => .ok []
    segApi := fun _ _ => .error .rateLimit
    rawApi := fun _ inv _ => if inv = 1 then .ok "fallback transcript"
                             else .error .rateLimit }

/-- Witness for C5: a conversion failure produces the fallback whole-file
transcript. -/
theorem c5_exception_falls_back_to_original_witness :
    (transcribe_chunked_run c5Env "input.mp3" none 120 FS.init).1 =
      .ok "fallback transcript" :=
  c5_exception_falls_back_to_original c5Env "input.mp3" none 120 FS.init
    "fallback transcript" (Or.inl rfl) rfl

/-- Environment for the C6 counterexample: one speech segment whose
remote transcription raises a non-retryable error; the fallback
whole-file call then succeeds. -/
def c6Env : Env :=
  { convert := .ok ()
    segm := fun _ => .ok [10]
    segApi := fun _ _ => .error .otherExc
    rawApi := fun _ inv _ => if inv = 1 then .ok "t" else .error .rateLimit }

/-- Counterexample to C6 as stated: on this error path the request exits
(successfully, via the fallback) with the per-segment temporary WAV
(file 1) still existing — `Whisper.transcribe` only reaches its
`os.remove` after a successful remote call, so the per-segment file is
not deleted on every exit path.  (File 0, the normalized WAV, is
correctly deleted by the `finally` block.) -/
theorem c6_counterexample :
    transcribe_chunked_run c6Env "input.mp3" none 120 FS.init =
      (.ok "t", ⟨2, [1]⟩) ∧
    ((transcribe_chunked_run c6Env "input.mp3" none 120 FS.init).2).existing
      ≠ [] :=
  ⟨rfl, by decide⟩

/-- C6 (amended): the normalized WAV created by conversion is deleted on
every exit path; and on a run whose per-segment remote calls all succeed
on their first attempt, every temporary file is deleted by the end of the
request.  (Per-segment WAV files are, however, leaked on error paths —
see the counterexample.) -/
theorem c6_cleanup (env : Env) (path : String) (cs : Option Int) (d : Int) :
    (∀ fs0 : FS, env.convert = .ok () →
      fs0.counter ∉ ((transcribe_chunked_run env path cs d fs0).2).existing) ∧
    (∀ (segs : List Nat) (t : Nat → String), env.convert = .ok () →
      env.segm (transcribe_chunked_chosen d cs) = .ok segs →
      (∀ i, i < segs.length → env.segApi i 0 = .ok (t i)) →
      ((transcribe_chunked_run env path cs d FS.init).2).existing = []) := by
  constructor
  · intro fs0 hconv
    obtain ⟨fs2, h2⟩ :=
      transcribe_chunked_run_snd_shape env path cs d fs0 hconv
    rw [h2]
    exact removeIfExists_not_mem fs2 fs0.counter
  · intro segs t hconv hseg hapi
    unfold transcribe_chunked_run
    rw [hconv]
    dsimp only [newTempFile, FS.init]
    rw [hseg]
    dsimp only
    cases segs with
    | nil =>
      rcases hraw : (transcribe_raw_result (env.rawApi path 0)).1 with a | m | e
      all_goals simp [hraw, fallbackRun_snd, removeIfExists, removeFile]
    | cons s rest =>
      simp only [List.isEmpty_cons, Bool.false_eq_true, if_false]
      have hloop := chunksLoop_clean_snd env t (s :: rest).length 0 1 []
        (by omega) (by simpa using hapi)
      rcases hcl : chunksLoop env (s :: rest).length 0 [] ⟨1, [0]⟩
        with ⟨r, fs2⟩
      have hfs2 : fs2 = ⟨1 + (s :: rest).length, [0]⟩ := by
        rw [hcl] at hloop
        exact hloop
      subst hfs2
      cases r with
      | ok chunks =>
        dsimp only
        simp [removeIfExists, removeFile]
      | error e =>
        dsimp only
        simp [fallbackRun_snd, removeIfExists, removeFile]

/-- Environment for the success half of the C6 witness: two segments,
every remote call succeeds at once. -/
def c6okEnv : Env :=
  { convert := .ok ()
    segm := fun _ => .ok [10, 11]
    segApi := fun _ _ => .ok "seg text"
    rawApi := fun _ _ _ => .error .rateLimit }

/-- Witness for C6 (amended): the normalized WAV (file 0) is absent from
the leak-path final state, and the all-success run ends with no temporary
file at all. -/
theorem c6_cleanup_witness :
    FS.init.counter ∉
      ((transcribe_chunked_run c6Env "input.mp3" none 120 FS.init).2).existing ∧
    ((transcribe_chunked_run c6okEnv "input.mp3" none 120 FS.init).2).existing
      = [] :=
  ⟨(c6_cleanup c6Env "input.mp3" none 120).1 FS.init rfl,
   (c6_cleanup c6okEnv "input.mp3" none 120).2 [10, 11] (fun _ => "seg text")
     rfl rfl (fun _ _ => rfl)⟩

/-! ## C8 and C9: dialogue extraction -/

theorem extract_dialogue_loop_trace_mem (tokens : String → Nat)
    (api : Nat → Except Unit String) (transcript : String)
    (history : List Message) :
    ∀ (fuel k : Nat) (msgVar : List Message) (acc : List ChatRequest)
      (req : ChatRequest),
      req ∈ (extract_dialogue_loop tokens api transcript history
        fuel k msgVar acc).2 →
      req ∈ acc ∨
        req = chat_request tokens transcript
          (build_messages history transcript) := by
  intro fuel
  induction fuel with
  | zero =>
    intro k msgVar acc req h
    simp only [extract_dialogue_loop, List.mem_reverse] at h
    exact .inl h
  | succ n ih =>
    intro k msgVar acc req h
    simp only [extract_dialogue_loop] at h
    cases hapi : api k with
    | ok resp =>
      rw [hapi] at h
      simp only [List.mem_reverse, List.mem_cons] at h
      rcases h with h | h
      · exact .inr h
      · exact .inl h
    | error e =>
      rw [hapi] at h
      dsimp only at h
      rcases ih (k + 1) _ _ req h with h' | h'
      · rcases List.mem_cons.mp h' with h'' | h''
        · exact .inr h''
        · exact .inl h''
      · exact .inr h'

theorem extract_dialogue_loop_rate_limited_forever (tokens : String → Nat)
    (transcript : String) (history : List Message) :
    ∀ (fuel k : Nat) (msgVar : List Message) (acc : List ChatRequest),
      (extract_dialogue_loop tokens (fun _ => .error ()) transcript history
        fuel k msgVar acc).1 = none := by
  intro fuel
  induction fuel with
  | zero => intro k msgVar acc; rfl
  | succ n ih =>
    intro k msgVar acc
    exact ih (k + 1) _ _

/-- C8 (code defect, evaluated at the failing input): transcript
`"hello"`, no history, rate-limit on attempts 0 and 1, success on
attempt 2.  The `messages.pop(1)` executed after each rate-limit acts on a
local list that the loop rebuilds from scratch (or from `history`) at the
top of the next iteration, so every attempt — including the retries after
a rate-limit — sends the identical 2-message sequence: the prompt never
shrinks, contrary to the claim.  The unbounded-retry half of the claim is
real: under permanent rate-limiting the loop never returns, for any
iteration bound. -/
theorem c8_pop_does_not_shrink_retry_prompt :
    (extract_dialogue_run String.length
        (fun k => if k < 2 then .error () else .ok "Speaker 1: hi")
        "hello" [] 10).1 = some "Speaker 1: hi" ∧
    ((extract_dialogue_run String.length
        (fun k => if k < 2 then .error () else .ok "Speaker 1: hi")
        "hello" [] 10).2.map (fun r => r.messages)) =
      [build_messages [] "hello", build_messages [] "hello",
       build_messages [] "hello"] ∧
    (build_messages [] "hello").length = 2 ∧
    ∀ fuel : Nat,
      (extract_dialogue_run String.length (fun _ => .error ())
        "hello" [] fuel).1 = none := by
  refine ⟨rfl, rfl, rfl, ?_⟩
  intro fuel
  exact extract_dialogue_loop_rate_limited_forever String.length "hello" []
    fuel 0 [] []

/-- C9: every chat-completion request issued by `extract_dialogue` carries
`max_tokens = max(1, min(4096, 8191 - (prompt_tokens + transcript_tokens
+ (4 * number_of_messages + 3))))` — where `number_of_messages` counts the
message list actually sent — and the fixed sampling parameters
`temperature = 1`, `top_p = 1`, `presence_penalty = 0`,
`frequency_penalty = 0`. -/
theorem c9_request_budget_and_sampling (tokens : String → Nat)
    (api : Nat → Except Unit String) (transcript : String)
    (history : List Message) (fuel : Nat) (req : ChatRequest)
    (hmem : req ∈ (extract_dialogue_run tokens api transcript history
      fuel).2) :
    req.max_tokens =
      max 1 (min 4096
        (8191 - ((tokens diarization_prompt : Int) +
          (tokens transcript : Int) +
          (4 * (req.messages.length : Int) + 3)))) ∧
    req.temperature = 1 ∧ req.top_p = 1 ∧
    req.presence_penalty = 0 ∧ req.frequency_penalty = 0 := by
  rcases extract_dialogue_loop_trace_mem tokens api transcript history
      fuel 0 [] [] req hmem with h | h
  · simp at h
  · subst h
    refine ⟨?_, rfl, rfl, rfl, rfl⟩
    show compute_max_token tokens transcript
        (build_messages history transcript) = _
    simp only [compute_max_token, chat_request]
    omega

/-- The single request of the C9 witness run. -/
def c9Req : ChatRequest :=
  chat_request String.length "hi" (build_messages [] "hi")

/-- Witness for C9: on transcript `"hi"` with no history and an
immediately successful remote call, the one request sent carries the
claimed token budget and the fixed sampling parameters. -/
theorem c9_request_budget_and_sampling_witness :
    c9Req.max_tokens =
      max 1 (min 4096
        (8191 - ((String.length diarization_prompt : Int) +
          (String.length "hi" : Int) +
          (4 * (c9Req.messages.length : Int) + 3)))) ∧
    c9Req.temperature = 1 ∧ c9Req.top_p = 1 ∧
    c9Req.presence_penalty = 0 ∧ c9Req.frequency_penalty = 0 :=
  c9_request_budget_and_sampling String.length (fun _ => .ok "r") "hi" [] 1
    c9Req (by simp [extract_dialogue_run, extract_dialogue_loop, c9Req])

end SpeakerDiarization
